import Mathlib

/-!
Verification of the SnapToWindow window-management application.

The repository ships the TypeScript/React settings UI (`src/App.tsx`) and the
README describing the Tauri/Rust backend.  The UI layer (snap-position
enumeration, shortcut tables, snap-preview geometry, accessibility-permission
state machine) is embedded below directly from `src/App.tsx`.  The Rust
backend (`src-tauri/src/window_manager`: geometry types, snap engine,
platform backend, orchestrator) is not among the provided source files, so
those components are modelled from the specification, as marked on each
definition.
-/

/-- SnapPosition, embedded from `src/App.tsx` (`type SnapPosition = "left_half" | ...`):
a closed union of fifteen string tags. -/
inductive SnapPosition where
  | left_half
  | right_half
  | top_half
  | bottom_half
  | top_left
  | top_right
  | bottom_left
  | bottom_right
  | maximize
  | center
  | left_third
  | center_third
  | right_third
  | left_two_thirds
  | right_two_thirds
deriving DecidableEq, Fintype

/-- The string tag of each `SnapPosition` variant, exactly the string literals of
the TypeScript union in `src/App.tsx`. -/
def SnapPosition.tag : SnapPosition → String
  | .left_half => "left_half"
  | .right_half => "right_half"
  | .top_half => "top_half"
  | .bottom_half => "bottom_half"
  | .top_left => "top_left"
  | .top_right => "top_right"
  | .bottom_left => "bottom_left"
  | .bottom_right => "bottom_right"
  | .maximize => "maximize"
  | .center => "center"
  | .left_third => "left_third"
  | .center_third => "center_third"
  | .right_third => "right_third"
  | .left_two_thirds => "left_two_thirds"
  | .right_two_thirds => "right_two_thirds"

/-- The list of all fifteen `SnapPosition` variants, in the order of the
TypeScript union declaration. -/
def allSnapPositions : List SnapPosition :=
  [.left_half, .right_half, .top_half, .bottom_half,
   .top_left, .top_right, .bottom_left, .bottom_right,
   .maximize, .center,
   .left_third, .center_third, .right_third, .left_two_thirds, .right_two_thirds]

/-- Modelled from the spec: `Rect` (§3, `window_manager/types.rs`, not among the
provided sources) — `{ x, y, width, height }`, all signed integers, in
virtual-screen coordinates. -/
structure Rect where
  x : Int
  y : Int
  width : Int
  height : Int
deriving DecidableEq

/-- Modelled from the spec: the geometry primitive `contains_point` (§4.1).
A point is inside a rectangle when it lies in the half-open span on both axes. -/
def Rect.contains_point (r : Rect) (px py : Int) : Prop :=
  r.x ≤ px ∧ px < r.x + r.width ∧ r.y ≤ py ∧ py < r.y + r.height

instance (r : Rect) (px py : Int) : Decidable (r.contains_point px py) := by
  unfold Rect.contains_point; infer_instance

/-- Containment of one rectangle inside another (used to state the spec's
invariants "`work_area` is fully contained within `bounds`" and "`compute_target_rect`
returns a rectangle fully contained within `work_area`"). -/
def Rect.containedIn (inner outer : Rect) : Prop :=
  outer.x ≤ inner.x ∧ outer.y ≤ inner.y ∧
  inner.x + inner.width ≤ outer.x + outer.width ∧
  inner.y + inner.height ≤ outer.y + outer.height

instance (inner outer : Rect) : Decidable (inner.containedIn outer) := by
  unfold Rect.containedIn; infer_instance

/-- Modelled from the spec: `Display` (§3, `window_manager/types.rs`, not among
the provided sources) — `{ id, bounds, work_area, is_primary }`.  The spec's
`scale_factor` field (floating point) is omitted: no claim under verification
depends on it. -/
structure Display where
  id : Nat
  bounds : Rect
  work_area : Rect
  is_primary : Bool
deriving DecidableEq

/-- The spec's `Display` invariant (§3): the work area is fully contained in the
bounds, and both rectangles have positive width and height. -/
def Display.Valid (d : Display) : Prop :=
  d.work_area.containedIn d.bounds ∧
  0 < d.work_area.width ∧ 0 < d.work_area.height ∧
  0 < d.bounds.width ∧ 0 < d.bounds.height

instance (d : Display) : Decidable d.Valid := by
  unfold Display.Valid; infer_instance

/-- Modelled from the spec: `Window` (§3) — `{ native_handle, frame, owning_display_id }`
with an opaque platform handle. -/
structure Window where
  native_handle : Nat
  frame : Rect
  owning_display_id : Nat
deriving DecidableEq

/-- Modelled from the spec: `PermissionState` (§3) — `Granted | Denied | Unknown`. -/
inductive PermissionState where
  | Granted
  | Denied
  | Unknown
deriving DecidableEq

/-- Modelled from the spec: the error taxonomy of §7. -/
inductive SnapError where
  | PermissionDenied
  | NoFocusedWindow
  | WindowNotFound
  | NoDisplaysFound
  | NativeApiFailure (message : String)
deriving DecidableEq

/-- Modelled from the spec: the snap engine `compute_target_rect` (§4.3), which
lives in the Rust backend (`src-tauri/src/window_manager`), not among the
provided sources.  Computation policy per §4.3: halves are exactly 50% of the
work area along one axis (full extent on the other) anchored at the respective
side; quarters 50% × 50% anchored at each corner; thirds divide the width into
three equal integer parts with the remainder pixels assigned to the last
segment; two-thirds variants split the width 1/3 + 2/3 under the same
remainder rule, anchored left or right; center is 2/3 × 2/3 of the work area,
centered, the offset rounded down by integer division; maximize is exactly the
work area.  Operates on `work_area`, never `bounds`. -/
def compute_target_rect (p : SnapPosition) (d : Display) : Rect :=
  let wa := d.work_area
  let hw := wa.width / 2
  let hh := wa.height / 2
  let t := wa.width / 3
  match p with
  | .left_half => ⟨wa.x, wa.y, hw, wa.height⟩
  | .right_half => ⟨wa.x + wa.width - hw, wa.y, hw, wa.height⟩
  | .top_half => ⟨wa.x, wa.y, wa.width, hh⟩
  | .bottom_half => ⟨wa.x, wa.y + wa.height - hh, wa.width, hh⟩
  | .top_left => ⟨wa.x, wa.y, hw, hh⟩
  | .top_right => ⟨wa.x + wa.width - hw, wa.y, hw, hh⟩
  | .bottom_left => ⟨wa.x, wa.y + wa.height - hh, hw, hh⟩
  | .bottom_right => ⟨wa.x + wa.width - hw, wa.y + wa.height - hh, hw, hh⟩
  | .maximize => wa
  | .center =>
      let cw := 2 * wa.width / 3
      let ch := 2 * wa.height / 3
      ⟨wa.x + (wa.width - cw) / 2, wa.y + (wa.height - ch) / 2, cw, ch⟩
  | .left_third => ⟨wa.x, wa.y, t, wa.height⟩
  | .center_third => ⟨wa.x + t, wa.y, t, wa.height⟩
  | .right_third => ⟨wa.x + 2 * t, wa.y, wa.width - 2 * t, wa.height⟩
  | .left_two_thirds => ⟨wa.x, wa.y, 2 * t, wa.height⟩
  | .right_two_thirds => ⟨wa.x + t, wa.y, wa.width - t, wa.height⟩

/-- Modelled from the spec: the overlapping area of two rectangles, used by
`get_current_display` (§4.2) to pick "the display whose bounds contain the
largest overlapping area with the window's frame". -/
def overlapArea (a b : Rect) : Int :=
  max 0 (min (a.x + a.width) (b.x + b.width) - max a.x b.x) *
  max 0 (min (a.y + a.height) (b.y + b.height) - max a.y b.y)

/-- Modelled from the spec: selection of the best display for a window frame —
a candidate replaces the current best only with strictly larger overlap area,
or equal area and a strictly lower display id (tie-break: lowest id, §4.2). -/
def pickDisplay (f : Rect) (best : Display) : List Display → Display
  | [] => best
  | d :: ds =>
      if overlapArea f d.bounds > overlapArea f best.bounds ∨
         (overlapArea f d.bounds = overlapArea f best.bounds ∧ d.id < best.id)
      then pickDisplay f d ds
      else pickDisplay f best ds

/-- Modelled from the spec: `get_current_display(window)` (§4.2, Rust backend not
among the provided sources) — returns the display whose bounds have the largest
overlap with the window's frame (ties broken by lowest id); fails with
`NoDisplaysFound` only when display enumeration itself fails (empty list). -/
def get_current_display (displays : List Display) (w : Window) : Except SnapError Display :=
  match displays with
  | [] => .error .NoDisplaysFound
  | d :: ds => .ok (pickDisplay w.frame d ds)

/-- Modelled from the spec: the observable state of the platform backend
(§4.2) for one orchestration call — the current permission state, the focused
window (if any), the live display list, and the outcome the native
`set_window_frame` call would report if attempted. -/
structure BackendState where
  permission : PermissionState
  focused : Option Window
  displays : List Display
  set_frame_result : Except SnapError Unit

/-- Modelled from the spec: `get_focused_window` (§4.2) — fails with
`PermissionDenied` if the OS denies introspection, with `NoFocusedWindow` if no
window has input focus, and otherwise returns the focused window. -/
def get_focused_window (s : BackendState) : Except SnapError Window :=
  match s.permission, s.focused with
  | .Denied, _ => .error .PermissionDenied
  | _, none => .error .NoFocusedWindow
  | _, some w => .ok w

/-- A record of one platform-backend call made by the orchestrator.
`SetWindowFrame` is the only call that mutates native window state. -/
inductive BackendCall where
  | GetFocusedWindow
  | GetCurrentDisplay
  | SetWindowFrame (native_handle : Nat) (frame : Rect)
deriving DecidableEq

/-- Whether a backend call mutates native window state. -/
def BackendCall.isMutation : BackendCall → Bool
  | .SetWindowFrame _ _ => true
  | _ => false

/-- Modelled from the spec: the snap orchestrator `snap_focused_window` (§4.4,
Rust backend not among the provided sources).  Sequence: resolve focused
window → resolve its current display → compute target rect → apply frame.
Each backend call's failure short-circuits the rest and is surfaced verbatim;
nothing is retried.  The result is paired with the ordered trace of backend
calls performed, so that "performs no native mutation call" is observable. -/
def snap_focused_window (s : BackendState) (p : SnapPosition) :
    Except SnapError Unit × List BackendCall :=
  match get_focused_window s with
  | .error e => (.error e, [.GetFocusedWindow])
  | .ok w =>
      match get_current_display s.displays w with
      | .error e => (.error e, [.GetFocusedWindow, .GetCurrentDisplay])
      | .ok d =>
          let r := compute_target_rect p d
          match s.set_frame_result with
          | .error e =>
              (.error e,
               [.GetFocusedWindow, .GetCurrentDisplay, .SetWindowFrame w.native_handle r])
          | .ok _ =>
              (.ok (),
               [.GetFocusedWindow, .GetCurrentDisplay, .SetWindowFrame w.native_handle r])

/-- A shortcut-list row, embedded from `src/App.tsx` (`interface ShortcutItem`). -/
structure ShortcutItem where
  name : String
  shortcut : String
  action : SnapPosition
deriving DecidableEq

/-- The `halves` shortcut table of `src/App.tsx`. -/
def halves : List ShortcutItem :=
  [⟨"Left Half", "⌃⌥←", .left_half⟩,
   ⟨"Right Half", "⌃⌥→", .right_half⟩,
   ⟨"Top Half", "⌃⌥↑", .top_half⟩,
   ⟨"Bottom Half", "⌃⌥↓", .bottom_half⟩]

/-- The `quarters` shortcut table of `src/App.tsx`. -/
def quarters : List ShortcutItem :=
  [⟨"Top Left", "⌃⌥U", .top_left⟩,
   ⟨"Top Right", "⌃⌥I", .top_right⟩,
   ⟨"Bottom Left", "⌃⌥J", .bottom_left⟩,
   ⟨"Bottom Right", "⌃⌥K", .bottom_right⟩,
   ⟨"Center", "⌃⌥C", .center⟩,
   ⟨"Maximize", "⌃⌥↵", .maximize⟩]

/-- The `thirds` shortcut table of `src/App.tsx`. -/
def thirds : List ShortcutItem :=
  [⟨"Left Third", "⌃⌥D", .left_third⟩,
   ⟨"Center Third", "⌃⌥F", .center_third⟩,
   ⟨"Right Third", "⌃⌥G", .right_third⟩,
   ⟨"Left ⅔", "⌃⌥E", .left_two_thirds⟩,
   ⟨"Right ⅔", "⌃⌥R", .right_two_thirds⟩]

/-- All shortcut rows, in the order the three tables are declared. -/
def allShortcuts : List ShortcutItem := halves ++ quarters ++ thirds

/-- The CSS class string `SnapPreview.getPreviewStyle` returns for each
position, embedded verbatim from `src/App.tsx`. -/
def getPreviewStyle (p : SnapPosition) : String :=
  let base := "absolute bg-blue-500 rounded-[1px]"
  match p with
  | .left_half => base ++ " left-0 top-0 w-1/2 h-full"
  | .right_half => base ++ " right-0 top-0 w-1/2 h-full"
  | .top_half => base ++ " left-0 top-0 w-full h-1/2"
  | .bottom_half => base ++ " left-0 bottom-0 w-full h-1/2"
  | .top_left => base ++ " left-0 top-0 w-1/2 h-1/2"
  | .top_right => base ++ " right-0 top-0 w-1/2 h-1/2"
  | .bottom_left => base ++ " left-0 bottom-0 w-1/2 h-1/2"
  | .bottom_right => base ++ " right-0 bottom-0 w-1/2 h-1/2"
  | .maximize => base ++ " inset-0"
  | .center => base ++ " left-1/2 top-1/2 -translate-x-1/2 -translate-y-1/2 w-2/3 h-2/3"
  | .left_third => base ++ " left-0 top-0 w-1/3 h-full"
  | .center_third => base ++ " left-1/3 top-0 w-1/3 h-full"
  | .right_third => base ++ " right-0 top-0 w-1/3 h-full"
  | .left_two_thirds => base ++ " left-0 top-0 w-2/3 h-full"
  | .right_two_thirds => base ++ " right-0 top-0 w-2/3 h-full"

/-- Split a list of characters on spaces (tokenizer for class strings). -/
def splitSpaces : List Char → List Char → List (List Char)
  | [], acc => [acc.reverse]
  | c :: cs, acc =>
      if c = ' ' then acc.reverse :: splitSpaces cs []
      else splitSpaces cs (c :: acc)

/-- The whitespace-separated class tokens of a class string. -/
def classTokens (s : String) : List (List Char) := splitSpaces s.data []

/-- The geometry a Tailwind class list assigns to an absolutely positioned
element inside its container, with lengths as exact fractions of the container
(numerator/denominator pairs, interpreted by `TwGeom.frac`): anchoring side,
offset of the anchored corner, width/height, and translation as a fraction of
the element's own size. -/
structure TwGeom where
  fromRight : Bool := false
  fromBottom : Bool := false
  left : Int × Int := (0, 1)
  top : Int × Int := (0, 1)
  w : Int × Int := (0, 1)
  h : Int × Int := (0, 1)
  tx : Int × Int := (0, 1)
  ty : Int × Int := (0, 1)
deriving DecidableEq

/-- Semantics of the individual Tailwind utility classes used by
`getPreviewStyle`: `left-f`/`top-f` set the anchored offset, `right-0`/`bottom-0`
anchor at the far side, `inset-0` stretches to the full container,
`w-f`/`h-f` set the size, and `-translate-x-1/2`/`-translate-y-1/2` shift the
element by half its own size.  Unknown classes (the visual ones of `base`) are
ignored. -/
def applyTwClass (g : TwGeom) (c : List Char) : TwGeom :=
  if c = "left-0".data then { g with left := (0, 1), fromRight := false }
  else if c = "right-0".data then { g with fromRight := true }
  else if c = "top-0".data then { g with top := (0, 1), fromBottom := false }
  else if c = "bottom-0".data then { g with fromBottom := true }
  else if c = "inset-0".data then
    { g with left := (0, 1), top := (0, 1), w := (1, 1), h := (1, 1),
             fromRight := false, fromBottom := false }
  else if c = "w-full".data then { g with w := (1, 1) }
  else if c = "h-full".data then { g with h := (1, 1) }
  else if c = "w-1/2".data then { g with w := (1, 2) }
  else if c = "h-1/2".data then { g with h := (1, 2) }
  else if c = "w-1/3".data then { g with w := (1, 3) }
  else if c = "w-2/3".data then { g with w := (2, 3) }
  else if c = "h-2/3".data then { g with h := (2, 3) }
  else if c = "left-1/2".data then { g with left := (1, 2), fromRight := false }
  else if c = "left-1/3".data then { g with left := (1, 3), fromRight := false }
  else if c = "top-1/2".data then { g with top := (1, 2), fromBottom := false }
  else if c = "-translate-x-1/2".data then { g with tx := (-1, 2) }
  else if c = "-translate-y-1/2".data then { g with ty := (-1, 2) }
  else g

/-- The geometry record accumulated from all classes of a preview style. -/
def previewGeom (p : SnapPosition) : TwGeom :=
  (classTokens (getPreviewStyle p)).foldl applyTwClass {}

/-- A rectangle whose coordinates and size are rational fractions of a
container: `x`,`y` is the top-left corner, `w`,`h` the size, all in `[0, 1]`. -/
structure FracRect where
  x : ℚ
  y : ℚ
  w : ℚ
  h : ℚ

/-- The rational value of a numerator/denominator pair. -/
def ratOfPair (p : Int × Int) : ℚ := (p.1 : ℚ) / (p.2 : ℚ)

/-- The fraction-of-container rectangle determined by a Tailwind geometry
record: a right/bottom anchor with zero offset places the far edge at the
container's far edge; otherwise the top-left corner sits at the anchored
offset shifted by the translation times the element's own size. -/
def TwGeom.frac (g : TwGeom) : FracRect where
  x := if g.fromRight then 1 - ratOfPair g.w else ratOfPair g.left + ratOfPair g.tx * ratOfPair g.w
  y := if g.fromBottom then 1 - ratOfPair g.h else ratOfPair g.top + ratOfPair g.ty * ratOfPair g.h
  w := ratOfPair g.w
  h := ratOfPair g.h

/-- The fraction-of-container rectangle of the snap preview for a position,
derived from the class string `getPreviewStyle` returns in `src/App.tsx`. -/
def previewFraction (p : SnapPosition) : FracRect :=
  (previewGeom p).frac

/-- The fraction-of-work-area policy of the snap engine as the spec states it
(§4.3): halves are 1/2 along one axis and full extent on the other, quarters
1/2 × 1/2 anchored at the matching corner, thirds 1/3 width at full height
(the center third offset by 1/3), two-thirds 2/3 width anchored left or
right, center 2/3 × 2/3 centered, and maximize the full work area. -/
def specFraction : SnapPosition → FracRect
  | .left_half => ⟨0, 0, 1/2, 1⟩
  | .right_half => ⟨1/2, 0, 1/2, 1⟩
  | .top_half => ⟨0, 0, 1, 1/2⟩
  | .bottom_half => ⟨0, 1/2, 1, 1/2⟩
  | .top_left => ⟨0, 0, 1/2, 1/2⟩
  | .top_right => ⟨1/2, 0, 1/2, 1/2⟩
  | .bottom_left => ⟨0, 1/2, 1/2, 1/2⟩
  | .bottom_right => ⟨1/2, 1/2, 1/2, 1/2⟩
  | .maximize => ⟨0, 0, 1, 1⟩
  | .center => ⟨1/6, 1/6, 2/3, 2/3⟩
  | .left_third => ⟨0, 0, 1/3, 1⟩
  | .center_third => ⟨1/3, 0, 1/3, 1⟩
  | .right_third => ⟨2/3, 0, 1/3, 1⟩
  | .left_two_thirds => ⟨0, 0, 2/3, 1⟩
  | .right_two_thirds => ⟨1/3, 0, 2/3, 1⟩

/-- The result of one completed run of `checkAccessibility` in `src/App.tsx`:
either the `check_accessibility` invoke resolved with a boolean, or the check
itself failed (the `catch` branch). -/
inductive CheckOutcome where
  | ok (enabled : Bool)
  | failure
deriving DecidableEq

/-- The update a completed `checkAccessibility` run applies to the
`accessibilityEnabled` React state (`src/App.tsx`): on success the resolved
boolean is stored, on failure `false` is stored; the prior state is
overwritten either way. -/
def applyCheck : Option Bool → CheckOutcome → Option Bool
  | _, .ok b => some b
  | _, .failure => some false

/-- The `accessibilityEnabled` state after a sequence of completed
`checkAccessibility` runs, starting from the initial `useState(null)`. -/
def accessibilityState (runs : List CheckOutcome) : Option Bool :=
  runs.foldl applyCheck none

/-- A display whose work area is the full 1920×1080 bounds (the spec's §8
scenario work area `{x:0, y:0, w:1920, h:1080}`). -/
def display1920 : Display :=
  ⟨0, ⟨0, 0, 1920, 1080⟩, ⟨0, 0, 1920, 1080⟩, true⟩

/-- A 1920×1080 display whose work area excludes a 40-pixel taskbar, so its
work area differs from its bounds. -/
def displayTaskbar : Display :=
  ⟨0, ⟨0, 0, 1920, 1080⟩, ⟨0, 0, 1920, 1040⟩, true⟩

/-- A display with a 1000-pixel-wide work area (width not divisible by 3). -/
def display1000 : Display :=
  ⟨0, ⟨0, 0, 1000, 600⟩, ⟨0, 0, 1000, 600⟩, true⟩

/-- The primary display of the spec's §8 multi-monitor scenario:
`{0,0,1920,1080}`. -/
def primaryDisplay : Display :=
  ⟨1, ⟨0, 0, 1920, 1080⟩, ⟨0, 0, 1920, 1080⟩, true⟩

/-- The secondary display of the spec's §8 multi-monitor scenario:
`{1920,0,1280,1024}`, adjacent to the right of the primary. -/
def secondaryDisplay : Display :=
  ⟨2, ⟨1920, 0, 1280, 1024⟩, ⟨1920, 0, 1280, 1024⟩, false⟩

/-- A focused window whose frame `{2000,100,800,600}` overlaps only the
secondary display's bounds. -/
def scenarioWindow : Window :=
  ⟨100, ⟨2000, 100, 800, 600⟩, 2⟩

/-- A backend state in which the OS permission is denied. -/
def deniedBackend : BackendState :=
  ⟨.Denied, some scenarioWindow, [primaryDisplay, secondaryDisplay], .ok ()⟩

/-- A backend state with permission granted but no focused window. -/
def unfocusedBackend : BackendState :=
  ⟨.Granted, none, [primaryDisplay, secondaryDisplay], .ok ()⟩

theorem ctr_left_half (d : Display) : compute_target_rect .left_half d =
    ⟨d.work_area.x, d.work_area.y, d.work_area.width / 2, d.work_area.height⟩ := rfl

theorem ctr_right_half (d : Display) : compute_target_rect .right_half d =
    ⟨d.work_area.x + d.work_area.width - d.work_area.width / 2, d.work_area.y,
     d.work_area.width / 2, d.work_area.height⟩ := rfl

theorem ctr_top_half (d : Display) : compute_target_rect .top_half d =
    ⟨d.work_area.x, d.work_area.y, d.work_area.width, d.work_area.height / 2⟩ := rfl

theorem ctr_bottom_half (d : Display) : compute_target_rect .bottom_half d =
    ⟨d.work_area.x, d.work_area.y + d.work_area.height - d.work_area.height / 2,
     d.work_area.width, d.work_area.height / 2⟩ := rfl

theorem ctr_top_left (d : Display) : compute_target_rect .top_left d =
    ⟨d.work_area.x, d.work_area.y, d.work_area.width / 2, d.work_area.height / 2⟩ := rfl

theorem ctr_top_right (d : Display) : compute_target_rect .top_right d =
    ⟨d.work_area.x + d.work_area.width - d.work_area.width / 2, d.work_area.y,
     d.work_area.width / 2, d.work_area.height / 2⟩ := rfl

theorem ctr_bottom_left (d : Display) : compute_target_rect .bottom_left d =
    ⟨d.work_area.x, d.work_area.y + d.work_area.height - d.work_area.height / 2,
     d.work_area.width / 2, d.work_area.height / 2⟩ := rfl

theorem ctr_bottom_right (d : Display) : compute_target_rect .bottom_right d =
    ⟨d.work_area.x + d.work_area.width - d.work_area.width / 2,
     d.work_area.y + d.work_area.height - d.work_area.height / 2,
     d.work_area.width / 2, d.work_area.height / 2⟩ := rfl

theorem ctr_maximize (d : Display) : compute_target_rect .maximize d = d.work_area := rfl

theorem ctr_center (d : Display) : compute_target_rect .center d =
    ⟨d.work_area.x + (d.work_area.width - 2 * d.work_area.width / 3) / 2,
     d.work_area.y + (d.work_area.height - 2 * d.work_area.height / 3) / 2,
     2 * d.work_area.width / 3, 2 * d.work_area.height / 3⟩ := rfl

theorem ctr_left_third (d : Display) : compute_target_rect .left_third d =
    ⟨d.work_area.x, d.work_area.y, d.work_area.width / 3, d.work_area.height⟩ := rfl

theorem ctr_center_third (d : Display) : compute_target_rect .center_third d =
    ⟨d.work_area.x + d.work_area.width / 3, d.work_area.y,
     d.work_area.width / 3, d.work_area.height⟩ := rfl

theorem ctr_right_third (d : Display) : compute_target_rect .right_third d =
    ⟨d.work_area.x + 2 * (d.work_area.width / 3), d.work_area.y,
     d.work_area.width - 2 * (d.work_area.width / 3), d.work_area.height⟩ := rfl

theorem ctr_left_two_thirds (d : Display) : compute_target_rect .left_two_thirds d =
    ⟨d.work_area.x, d.work_area.y, 2 * (d.work_area.width / 3), d.work_area.height⟩ := rfl

theorem ctr_right_two_thirds (d : Display) : compute_target_rect .right_two_thirds d =
    ⟨d.work_area.x + d.work_area.width / 3, d.work_area.y,
     d.work_area.width - d.work_area.width / 3, d.work_area.height⟩ := rfl

/-- Claim C3: for the work area `{x:0, y:0, width:1920, height:1080}`,
`compute_target_rect` returns exactly `{0,0,960,1080}` for LeftHalf,
`{960,0,960,540}` for TopRightQuarter, `{320,180,1280,720}` for Center
(2/3 × 2/3 of the work area, centered, offset rounded down), and
`{0,0,1920,1080}` for Maximize. -/
theorem snap_scenario_1920x1080 :
    compute_target_rect .left_half display1920 = ⟨0, 0, 960, 1080⟩ ∧
    compute_target_rect .top_right display1920 = ⟨960, 0, 960, 540⟩ ∧
    compute_target_rect .center display1920 = ⟨320, 180, 1280, 720⟩ ∧
    compute_target_rect .maximize display1920 = ⟨0, 0, 1920, 1080⟩ := by
  decide

/-- Claim C7: for every display, `compute_target_rect Maximize` returns a
rectangle identical to the display's work area; whenever the work area differs
from the bounds, the result is therefore not the bounds. -/
theorem maximize_returns_work_area :
    (∀ d : Display, compute_target_rect .maximize d = d.work_area) ∧
    (∀ d : Display, d.work_area ≠ d.bounds → compute_target_rect .maximize d ≠ d.bounds) := by
  refine ⟨fun d => rfl, fun d hne => ?_⟩
  rw [ctr_maximize]
  exact hne

/-- Witness for C7 at a display whose work area excludes a taskbar. -/
theorem maximize_returns_work_area_witness :
    displayTaskbar.work_area ≠ displayTaskbar.bounds ∧
    compute_target_rect .maximize displayTaskbar ≠ displayTaskbar.bounds :=
  ⟨by decide, maximize_returns_work_area.2 displayTaskbar (by decide)⟩

/-- Claim C9: `SnapPosition` is a closed enumeration of exactly fifteen
variants whose string tags are exactly the fifteen tags of the TypeScript
union, pairwise distinct, and no other value inhabits the type. -/
theorem snap_position_closed_enumeration :
    allSnapPositions.length = 15 ∧
    allSnapPositions.Nodup ∧
    (∀ p : SnapPosition, p ∈ allSnapPositions) ∧
    allSnapPositions.map SnapPosition.tag =
      ["left_half", "right_half", "top_half", "bottom_half",
       "top_left", "top_right", "bottom_left", "bottom_right",
       "maximize", "center",
       "left_third", "center_third", "right_third",
       "left_two_thirds", "right_two_thirds"] ∧
    (allSnapPositions.map SnapPosition.tag).Nodup := by
  decide

/-- Claim C10: the three shortcut tables together contain exactly one entry
for each of the fifteen `SnapPosition` variants — the actions are pairwise
distinct, every variant occurs, and all fifteen shortcut strings are pairwise
distinct, so `action` is a collision-free key across the whole list. -/
theorem shortcut_tables_cover_positions :
    allShortcuts.length = 15 ∧
    (allShortcuts.map ShortcutItem.action).Nodup ∧
    (∀ p : SnapPosition, p ∈ allShortcuts.map ShortcutItem.action) ∧
    (allShortcuts.map ShortcutItem.shortcut).Nodup := by
  decide

/-- Claim C1: for every snap position and every valid display (work area
contained in bounds, positive sizes), `compute_target_rect` totally succeeds —
it is a total function with no failure path — and the returned rectangle is
fully contained in the display's work area, hence also within the bounds and
never extending into the bounds outside the work area. -/
theorem compute_target_rect_in_work_area (p : SnapPosition) (d : Display)
    (hv : d.Valid) :
    (compute_target_rect p d).containedIn d.work_area ∧
    (compute_target_rect p d).containedIn d.bounds := by
  obtain ⟨hcont, hw, hh, hbw, hbh⟩ := hv
  simp only [Rect.containedIn] at hcont
  cases p <;>
    simp only [ctr_left_half, ctr_right_half, ctr_top_half, ctr_bottom_half,
      ctr_top_left, ctr_top_right, ctr_bottom_left, ctr_bottom_right,
      ctr_maximize, ctr_center, ctr_left_third, ctr_center_third,
      ctr_right_third, ctr_left_two_thirds, ctr_right_two_thirds,
      Rect.containedIn] <;>
    omega

/-- Witness for C1: the left half of a display with a taskbar stays inside the
work area and the bounds. -/
theorem compute_target_rect_in_work_area_witness :
    displayTaskbar.Valid ∧
    ((compute_target_rect .left_half displayTaskbar).containedIn displayTaskbar.work_area ∧
     (compute_target_rect .left_half displayTaskbar).containedIn displayTaskbar.bounds) :=
  ⟨by decide, compute_target_rect_in_work_area .left_half displayTaskbar (by decide)⟩

/-- Claim C2: for every valid display — including work-area widths not
divisible by 3 — the three third rectangles have widths ⌊w/3⌋, ⌊w/3⌋ and
⌊w/3⌋ + w % 3 (remainder assigned to the last segment), are adjacent, tile the
work area exactly (their union is the work area and they are pairwise
disjoint), and the two-thirds variants split the width 1/3 + 2/3 under the
same remainder rule: each two-thirds rectangle together with the complementary
third also tiles the work area with no gap or overlap. -/
theorem thirds_tile_work_area (d : Display) (hv : d.Valid) :
    (compute_target_rect .left_third d).width = d.work_area.width / 3 ∧
    (compute_target_rect .center_third d).width = d.work_area.width / 3 ∧
    (compute_target_rect .right_third d).width =
      d.work_area.width / 3 + d.work_area.width % 3 ∧
    ((compute_target_rect .left_third d).x = d.work_area.x ∧
     (compute_target_rect .center_third d).x =
       (compute_target_rect .left_third d).x + (compute_target_rect .left_third d).width ∧
     (compute_target_rect .right_third d).x =
       (compute_target_rect .center_third d).x + (compute_target_rect .center_third d).width ∧
     (compute_target_rect .right_third d).x + (compute_target_rect .right_third d).width =
       d.work_area.x + d.work_area.width) ∧
    (∀ px py : Int, d.work_area.contains_point px py ↔
      ((compute_target_rect .left_third d).contains_point px py ∨
       (compute_target_rect .center_third d).contains_point px py ∨
       (compute_target_rect .right_third d).contains_point px py)) ∧
    (∀ px py : Int,
      ¬((compute_target_rect .left_third d).contains_point px py ∧
        (compute_target_rect .center_third d).contains_point px py) ∧
      ¬((compute_target_rect .left_third d).contains_point px py ∧
        (compute_target_rect .right_third d).contains_point px py) ∧
      ¬((compute_target_rect .center_third d).contains_point px py ∧
        (compute_target_rect .right_third d).contains_point px py)) ∧
    ((compute_target_rect .left_two_thirds d).x = d.work_area.x ∧
     (compute_target_rect .left_two_thirds d).width =
       (compute_target_rect .left_third d).width +
       (compute_target_rect .center_third d).width ∧
     (compute_target_rect .right_two_thirds d).x =
       d.work_area.x + (compute_target_rect .left_third d).width ∧
     (compute_target_rect .right_two_thirds d).width =
       (compute_target_rect .center_third d).width +
       (compute_target_rect .right_third d).width) ∧
    (∀ px py : Int, d.work_area.contains_point px py ↔
      ((compute_target_rect .left_two_thirds d).contains_point px py ∨
       (compute_target_rect .right_third d).contains_point px py)) ∧
    (∀ px py : Int,
      ¬((compute_target_rect .left_two_thirds d).contains_point px py ∧
        (compute_target_rect .right_third d).contains_point px py)) ∧
    (∀ px py : Int, d.work_area.contains_point px py ↔
      ((compute_target_rect .left_third d).contains_point px py ∨
       (compute_target_rect .right_two_thirds d).contains_point px py)) ∧
    (∀ px py : Int,
      ¬((compute_target_rect .left_third d).contains_point px py ∧
        (compute_target_rect .right_two_thirds d).contains_point px py)) := by
  obtain ⟨hcont, hw, hh, hbw, hbh⟩ := hv
  simp only [ctr_left_third, ctr_center_third, ctr_right_third,
    ctr_left_two_thirds, ctr_right_two_thirds, Rect.contains_point]
  refine ⟨?_, ?_, ?_, ?_, ?_, ?_, ?_, ?_, ?_, ?_, ?_⟩ <;>
    intros <;> (try simp only [true_and, and_true]) <;> first
      | trivial
      | omega

/-- Witness for C2 at a work area of width 1000 (not divisible by 3): the last
third receives the remainder pixel. -/
theorem thirds_tile_work_area_witness :
    display1000.Valid ∧
    (compute_target_rect .left_third display1000).width = display1000.work_area.width / 3 :=
  ⟨by decide, (thirds_tile_work_area display1000 (by decide)).1⟩

theorem pickDisplay_mem (f : Rect) (best : Display) (ds : List Display) :
    pickDisplay f best ds ∈ best :: ds := by
  induction ds generalizing best with
  | nil => simp [pickDisplay]
  | cons d2 rest ih =>
      simp only [pickDisplay]
      split
      · have h := ih d2
        simp only [List.mem_cons] at h ⊢
        tauto
      · have h := ih best
        simp only [List.mem_cons] at h ⊢
        tauto

theorem pickDisplay_best (f : Rect) (best : Display) (ds : List Display) :
    ∀ d ∈ best :: ds,
      overlapArea f d.bounds ≤ overlapArea f (pickDisplay f best ds).bounds ∧
      (overlapArea f d.bounds = overlapArea f (pickDisplay f best ds).bounds →
        (pickDisplay f best ds).id ≤ d.id) := by
  induction ds generalizing best with
  | nil =>
      intro d hd
      simp only [List.mem_cons, List.not_mem_nil, or_false] at hd
      subst hd
      simp [pickDisplay]
  | cons d2 rest ih =>
      intro d hd
      simp only [pickDisplay]
      split
      · have h1 := ih d2 d2 (List.mem_cons_self d2 rest)
        simp only [List.mem_cons] at hd
        rcases hd with rfl | rfl | hmem
        · rename_i hcond
          omega
        · exact h1
        · exact ih d2 d (List.mem_cons_of_mem d2 hmem)
      · have h1 := ih best best (List.mem_cons_self best rest)
        simp only [List.mem_cons] at hd
        rcases hd with rfl | rfl | hmem
        · exact h1
        · rename_i hcond
          omega
        · exact ih best d (List.mem_cons_of_mem best hmem)

/-- Claim C5: `get_current_display` fails (with `NoDisplaysFound`) exactly when
display enumeration fails (the display list is empty); any display it returns
belongs to the list, has the largest overlap area with the window's frame, and
has the lowest id among displays of equal overlap; and in the spec's §8
two-display scenario — primary `{0,0,1920,1080}`, secondary `{1920,0,1280,1024}`,
window frame `{2000,100,800,600}` overlapping only the secondary's bounds —
the secondary display is returned, and a subsequent LeftHalf snap uses the
secondary's work area, yielding `{1920,0,640,1024}`. -/
theorem get_current_display_largest_overlap :
    (∀ w : Window, get_current_display [] w = .error .NoDisplaysFound) ∧
    (∀ (ds : List Display) (w : Window) (e : SnapError),
      get_current_display ds w = .error e → ds = [] ∧ e = .NoDisplaysFound) ∧
    (∀ (ds : List Display) (w : Window) (d : Display),
      get_current_display ds w = .ok d →
        d ∈ ds ∧ ∀ d2 ∈ ds,
          overlapArea w.frame d2.bounds ≤ overlapArea w.frame d.bounds ∧
          (overlapArea w.frame d2.bounds = overlapArea w.frame d.bounds →
            d.id ≤ d2.id)) ∧
    get_current_display [primaryDisplay, secondaryDisplay] scenarioWindow =
      .ok secondaryDisplay ∧
    compute_target_rect .left_half secondaryDisplay = ⟨1920, 0, 640, 1024⟩ := by
  refine ⟨fun w => rfl, ?_, ?_, rfl, rfl⟩
  · intro ds w e h
    cases ds with
    | nil =>
        simp only [get_current_display, Except.error.injEq] at h
        exact ⟨rfl, h.symm⟩
    | cons d1 rest => simp [get_current_display] at h
  · intro ds w d h
    cases ds with
    | nil => simp [get_current_display] at h
    | cons d1 rest =>
        simp only [get_current_display, Except.ok.injEq] at h
        subst h
        exact ⟨pickDisplay_mem w.frame d1 rest, pickDisplay_best w.frame d1 rest⟩

/-- Witness for C5: the optimality consequence at the concrete two-display
scenario — the secondary display is a member of the list and maximizes the
overlap with the scenario window's frame. -/
theorem get_current_display_largest_overlap_witness :
    secondaryDisplay ∈ [primaryDisplay, secondaryDisplay] ∧
    ∀ d2 ∈ [primaryDisplay, secondaryDisplay],
      overlapArea scenarioWindow.frame d2.bounds ≤
        overlapArea scenarioWindow.frame secondaryDisplay.bounds ∧
      (overlapArea scenarioWindow.frame d2.bounds =
        overlapArea scenarioWindow.frame secondaryDisplay.bounds →
        secondaryDisplay.id ≤ d2.id) :=
  get_current_display_largest_overlap.2.2.1
    [primaryDisplay, secondaryDisplay] scenarioWindow secondaryDisplay rfl

theorem get_focused_window_denied (s : BackendState) (h : s.permission = .Denied) :
    get_focused_window s = .error .PermissionDenied := by
  unfold get_focused_window
  rw [h]
  cases s.focused <;> rfl

theorem get_focused_window_unfocused (s : BackendState)
    (hp : s.permission ≠ .Denied) (hf : s.focused = none) :
    get_focused_window s = .error .NoFocusedWindow := by
  unfold get_focused_window
  rw [hf]
  cases hperm : s.permission with
  | Denied => exact absurd hperm hp
  | Granted => rfl
  | Unknown => rfl

/-- Claim C4: in `snap_focused_window`, the failure of any platform-backend
call short-circuits the remaining steps and is surfaced verbatim, with no
retry (the trace of backend calls contains no duplicate call).  When no window
has input focus the orchestrator fails with `NoFocusedWindow` and performs no
native mutation call; when permission is `Denied` it fails with
`PermissionDenied` before attempting any frame mutation; any display- or
frame-stage error is likewise surfaced verbatim, and errors preceding the
frame stage leave the mutation trace empty (state unchanged on error). -/
theorem snap_focused_window_short_circuits :
    (∀ (s : BackendState) (p : SnapPosition), s.permission = .Denied →
      snap_focused_window s p = (.error .PermissionDenied, [.GetFocusedWindow])) ∧
    (∀ (s : BackendState) (p : SnapPosition), s.permission ≠ .Denied →
      s.focused = none →
      snap_focused_window s p = (.error .NoFocusedWindow, [.GetFocusedWindow])) ∧
    (∀ (s : BackendState) (p : SnapPosition) (e : SnapError),
      get_focused_window s = .error e →
        (snap_focused_window s p).1 = .error e ∧
        ∀ c ∈ (snap_focused_window s p).2, c.isMutation = false) ∧
    (∀ (s : BackendState) (p : SnapPosition) (w : Window) (e : SnapError),
      get_focused_window s = .ok w →
      get_current_display s.displays w = .error e →
        (snap_focused_window s p).1 = .error e ∧
        ∀ c ∈ (snap_focused_window s p).2, c.isMutation = false) ∧
    (∀ (s : BackendState) (p : SnapPosition) (w : Window) (d : Display) (e : SnapError),
      get_focused_window s = .ok w →
      get_current_display s.displays w = .ok d →
      s.set_frame_result = .error e →
        (snap_focused_window s p).1 = .error e) ∧
    (∀ (s : BackendState) (p : SnapPosition), (snap_focused_window s p).2.Nodup) := by
  refine ⟨?_, ?_, ?_, ?_, ?_, ?_⟩
  · intro s p h
    simp only [snap_focused_window, get_focused_window_denied s h]
  · intro s p hp hf
    simp only [snap_focused_window, get_focused_window_unfocused s hp hf]
  · intro s p e h
    simp only [snap_focused_window, h]
    refine ⟨by trivial, ?_⟩
    intro c hc
    simp only [List.mem_singleton] at hc
    subst hc
    rfl
  · intro s p w e hok hd
    simp only [snap_focused_window, hok, hd]
    refine ⟨by trivial, ?_⟩
    intro c hc
    simp only [List.mem_cons, List.not_mem_nil, or_false] at hc
    rcases hc with rfl | rfl <;> rfl
  · intro s p w d e hok hd hsf
    simp only [snap_focused_window, hok, hd, hsf]
  · intro s p
    unfold snap_focused_window
    cases hgf : get_focused_window s with
    | error e => simp
    | ok w =>
        cases hcd : get_current_display s.displays w with
        | error e => simp [hcd]
        | ok d =>
            cases hsf : s.set_frame_result with
            | error e => simp [hcd, hsf]
            | ok u => simp [hcd, hsf]

/-- Witness for C4: the concrete denied-permission and no-focused-window
backend states. -/
theorem snap_focused_window_short_circuits_witness :
    deniedBackend.permission = .Denied ∧
    snap_focused_window deniedBackend .left_half =
      (.error .PermissionDenied, [.GetFocusedWindow]) ∧
    unfocusedBackend.permission ≠ .Denied ∧
    unfocusedBackend.focused = none ∧
    snap_focused_window unfocusedBackend .left_half =
      (.error .NoFocusedWindow, [.GetFocusedWindow]) :=
  ⟨rfl,
   snap_focused_window_short_circuits.1 deniedBackend .left_half rfl,
   by decide,
   rfl,
   snap_focused_window_short_circuits.2.1 unfocusedBackend .left_half (by decide) rfl⟩

theorem foldl_applyCheck_isSome (runs : List CheckOutcome) (b : Bool) :
    (runs.foldl applyCheck (some b)).isSome = true := by
  induction runs generalizing b with
  | nil => rfl
  | cons r rest ih =>
      simp only [List.foldl_cons]
      cases r with
      | ok b2 => exact ih b2
      | failure => exact ih false

/-- Claim C8: the permission state is always one of Granted, Denied or Unknown,
and Unknown is the only state before the first check; in the UI state machine
of `src/App.tsx`, `accessibilityEnabled` starts as `null` and every completed
run of `checkAccessibility` stores a boolean — the resolved value on success,
`false` on failure of the check itself — so after any nonempty sequence of
completed checks the state is never `null` again. -/
theorem accessibility_state_machine :
    (∀ s : PermissionState, s = .Granted ∨ s = .Denied ∨ s = .Unknown) ∧
    accessibilityState [] = none ∧
    (∀ (prior : Option Bool) (b : Bool), applyCheck prior (.ok b) = some b) ∧
    (∀ prior : Option Bool, applyCheck prior .failure = some false) ∧
    (∀ runs : List CheckOutcome, runs ≠ [] →
      (accessibilityState runs).isSome = true) := by
  refine ⟨?_, rfl, fun prior b => rfl, fun prior => rfl, ?_⟩
  · intro s
    cases s
    · exact Or.inl rfl
    · exact Or.inr (Or.inl rfl)
    · exact Or.inr (Or.inr rfl)
  · intro runs hne
    cases runs with
    | nil => exact absurd rfl hne
    | cons r rest =>
        unfold accessibilityState
        simp only [List.foldl_cons]
        cases r with
        | ok b => exact foldl_applyCheck_isSome rest b
        | failure => exact foldl_applyCheck_isSome rest false

/-- Witness for C8: a single successful Granted check settles the state. -/
theorem accessibility_state_machine_witness :
    ([CheckOutcome.ok true] ≠ ([] : List CheckOutcome)) ∧
    (accessibilityState [CheckOutcome.ok true]).isSome = true :=
  ⟨by decide,
   accessibility_state_machine.2.2.2.2 [CheckOutcome.ok true] (by decide)⟩

/-- Claim C6: for every snap position, the fractional geometry that
`SnapPreview.getPreviewStyle` assigns to the preview rectangle (anchor corner
plus width/height as fractions of the container) equals the
fraction-of-work-area policy of the snap engine — halves 1/2 along one axis
and full extent on the other, quarters 1/2 × 1/2 at the matching corner,
thirds 1/3 width at full height with the center third offset by 1/3,
two-thirds 2/3 width anchored left or right, center 2/3 × 2/3 centered,
maximize the full container — and, scaled to the 1920×1080 work area, the
same fractions reproduce `compute_target_rect` exactly. -/
theorem preview_fractions_match_engine_policy (p : SnapPosition) :
    previewFraction p = specFraction p ∧
    ((compute_target_rect p display1920).x : ℚ) = 1920 * (specFraction p).x ∧
    ((compute_target_rect p display1920).y : ℚ) = 1080 * (specFraction p).y ∧
    ((compute_target_rect p display1920).width : ℚ) = 1920 * (specFraction p).w ∧
    ((compute_target_rect p display1920).height : ℚ) = 1080 * (specFraction p).h := by
  simp only [previewFraction]
  cases p
  case left_half =>
    rw [show previewGeom .left_half = ⟨false, false, (0,1), (0,1), (1,2), (1,1), (0,1), (0,1)⟩
          from by decide,
        show compute_target_rect .left_half display1920 = ⟨0, 0, 960, 1080⟩ from by decide]
    simp only [TwGeom.frac, specFraction, ratOfPair]
    norm_num
  case right_half =>
    rw [show previewGeom .right_half = ⟨true, false, (0,1), (0,1), (1,2), (1,1), (0,1), (0,1)⟩
          from by decide,
        show compute_target_rect .right_half display1920 = ⟨960, 0, 960, 1080⟩ from by decide]
    simp only [TwGeom.frac, specFraction, ratOfPair]
    norm_num
  case top_half =>
    rw [show previewGeom .top_half = ⟨false, false, (0,1), (0,1), (1,1), (1,2), (0,1), (0,1)⟩
          from by decide,
        show compute_target_rect .top_half display1920 = ⟨0, 0, 1920, 540⟩ from by decide]
    simp only [TwGeom.frac, specFraction, ratOfPair]
    norm_num
  case bottom_half =>
    rw [show previewGeom .bottom_half = ⟨false, true, (0,1), (0,1), (1,1), (1,2), (0,1), (0,1)⟩
          from by decide,
        show compute_target_rect .bottom_half display1920 = ⟨0, 540, 1920, 540⟩ from by decide]
    simp only [TwGeom.frac, specFraction, ratOfPair]
    norm_num
  case top_left =>
    rw [show previewGeom .top_left = ⟨false, false, (0,1), (0,1), (1,2), (1,2), (0,1), (0,1)⟩
          from by decide,
        show compute_target_rect .top_left display1920 = ⟨0, 0, 960, 540⟩ from by decide]
    simp only [TwGeom.frac, specFraction, ratOfPair]
    norm_num
  case top_right =>
    rw [show previewGeom .top_right = ⟨true, false, (0,1), (0,1), (1,2), (1,2), (0,1), (0,1)⟩
          from by decide,
        show compute_target_rect .top_right display1920 = ⟨960, 0, 960, 540⟩ from by decide]
    simp only [TwGeom.frac, specFraction, ratOfPair]
    norm_num
  case bottom_left =>
    rw [show previewGeom .bottom_left = ⟨false, true, (0,1), (0,1), (1,2), (1,2), (0,1), (0,1)⟩
          from by decide,
        show compute_target_rect .bottom_left display1920 = ⟨0, 540, 960, 540⟩ from by decide]
    simp only [TwGeom.frac, specFraction, ratOfPair]
    norm_num
  case bottom_right =>
    rw [show previewGeom .bottom_right = ⟨true, true, (0,1), (0,1), (1,2), (1,2), (0,1), (0,1)⟩
          from by decide,
        show compute_target_rect .bottom_right display1920 = ⟨960, 540, 960, 540⟩
          from by decide]
    simp only [TwGeom.frac, specFraction, ratOfPair]
    norm_num
  case maximize =>
    rw [show previewGeom .maximize = ⟨false, false, (0,1), (0,1), (1,1), (1,1), (0,1), (0,1)⟩
          from by decide,
        show compute_target_rect .maximize display1920 = ⟨0, 0, 1920, 1080⟩ from by decide]
    simp only [TwGeom.frac, specFraction, ratOfPair]
    norm_num
  case center =>
    rw [show previewGeom .center = ⟨false, false, (1,2), (1,2), (2,3), (2,3), (-1,2), (-1,2)⟩
          from by decide,
        show compute_target_rect .center display1920 = ⟨320, 180, 1280, 720⟩ from by decide]
    simp only [TwGeom.frac, specFraction, ratOfPair]
    norm_num
  case left_third =>
    rw [show previewGeom .left_third = ⟨false, false, (0,1), (0,1), (1,3), (1,1), (0,1), (0,1)⟩
          from by decide,
        show compute_target_rect .left_third display1920 = ⟨0, 0, 640, 1080⟩ from by decide]
    simp only [TwGeom.frac, specFraction, ratOfPair]
    norm_num
  case center_third =>
    rw [show previewGeom .center_third = ⟨false, false, (1,3), (0,1), (1,3), (1,1), (0,1), (0,1)⟩
          from by decide,
        show compute_target_rect .center_third display1920 = ⟨640, 0, 640, 1080⟩ from by decide]
    simp only [TwGeom.frac, specFraction, ratOfPair]
    norm_num
  case right_third =>
    rw [show previewGeom .right_third = ⟨true, false, (0,1), (0,1), (1,3), (1,1), (0,1), (0,1)⟩
          from by decide,
        show compute_target_rect .right_third display1920 = ⟨1280, 0, 640, 1080⟩ from by decide]
    simp only [TwGeom.frac, specFraction, ratOfPair]
    norm_num
  case left_two_thirds =>
    rw [show previewGeom .left_two_thirds =
          ⟨false, false, (0,1), (0,1), (2,3), (1,1), (0,1), (0,1)⟩ from by decide,
        show compute_target_rect .left_two_thirds display1920 = ⟨0, 0, 1280, 1080⟩
          from by decide]
    simp only [TwGeom.frac, specFraction, ratOfPair]
    norm_num
  case right_two_thirds =>
    rw [show previewGeom .right_two_thirds =
          ⟨true, false, (0,1), (0,1), (2,3), (1,1), (0,1), (0,1)⟩ from by decide,
        show compute_target_rect .right_two_thirds display1920 = ⟨640, 0, 1280, 1080⟩
          from by decide]
    simp only [TwGeom.frac, specFraction, ratOfPair]
    norm_num
